import Mathlib

/-!
Verification of the `Prerender` page pool (`src/prerender/prerender.py`).

A shallow embedding of the `Prerender` class: a fixed pool of Chrome page
handles (`self._pages`), an idle FIFO queue (`self._idle_pages`), the
`render` protocol (acquire / attach / listen / navigate / wait), the error
classification in `render`'s `except` clauses, and the release step
`_manage_page` that runs in the shielded `finally` block.

Two models are developed, both read off the same source:

* a deterministic single-call model (`renderBody`, `managePage`, `render`,
  `bootstrapFrom`, `shutdown`) where the behaviour of the external driver
  at each suspension point is an explicit `BodyScenario` parameter and the
  externally visible operations are recorded as an `Effect` trace;
* a small-step transition system (`Sys`, `Step`) whose transitions are the
  pool-state mutations performed at the atomic sections of concurrent
  `render` calls, used for the concurrency invariant.
-/

namespace Prerender

/-- One Chrome page handle, as the pool sees it.
Modelled from the spec: the `Page` class lives in `chromerdp.py`, which is
not part of the sources; the spec lists its pool-visible mutable fields as
id, transport-open flag (`websocket`) and iteration counter. -/
structure Page where
  id : Nat
  websocket : Bool
  iteration : Nat
  deriving Repr, DecidableEq

/-- The process-wide configuration read from the environment at module load:
`PRERENDER_TIMEOUT`, `CONCURRENCY` and `ITERATIONS`
(`prerender.py` lines 13-15). Only `maxIterations` and `concurrency`
influence pool-state behaviour. -/
structure Config where
  prerenderTimeout : Nat
  concurrency : Nat
  maxIterations : Nat
  deriving Repr, DecidableEq

/-- The mutable pool state of a `Prerender` object: `pages` is
`self._pages` (a set of `Page` objects, modelled by the list of their ids),
`idle` is the FIFO queue `self._idle_pages` (head = next page handed out),
and `nextId` is the driver-side source of fresh page ids
(`ChromeRemoteDebugger.new_page` is external; each call yields a page
distinct from all earlier ones). -/
structure PoolState where
  pages : List Nat
  idle : List Page
  nextId : Nat
  deriving Repr, DecidableEq

/-- State as left by `Prerender.__init__`: empty pool, empty idle queue. -/
def PoolState.initial : PoolState :=
  { pages := [], idle := [], nextId := 0 }

/-- Modelled from the spec: `ChromeRemoteDebugger.new_page()` (the driver,
in `chromerdp.py`, not part of the sources) creates a fresh `Page` with
transport closed and iteration counter 0. -/
def newPage (n : Nat) : Page :=
  { id := n, websocket := false, iteration := 0 }

/-- Embeds `Prerender.bootstrap` (lines 27-31): `concurrency` times, create a page
via the driver, put it on the idle queue and add it to `self._pages`. -/
def bootstrapFrom : Nat → PoolState → PoolState
  | 0, st => st
  | n + 1, st =>
      bootstrapFrom n
        { pages := st.pages ++ [st.nextId]
          idle := st.idle ++ [newPage st.nextId]
          nextId := st.nextId + 1 }

/-- A bootstrapped pool: `bootstrap` run on a fresh `Prerender` object. -/
def bootstrap (cfg : Config) : PoolState :=
  bootstrapFrom cfg.concurrency PoolState.initial

/-- The externally visible operations a call performs, in order: calls on
the driver and on pages, and queue operations. Used to state which actions
each code path takes. -/
inductive Effect where
  | attach (id : Nat)
  | listen (id : Nat)
  | navigate (id : Nat) (url : String)
  | wait (id : Nat)
  | detach (id : Nat)
  | close (id : Nat)
  | newPage (id : Nat)
  | putIdle (id : Nat)
  | taskDone
  | sleepMs (ms : Nat)
  | rdpShutdown
  deriving Repr, DecidableEq

/-- The error kinds that can be raised at a suspension point of the render
body by the transport / driver layer: `InvalidHandshake` and
`ConnectionClosed` from `websockets.exceptions`, `RuntimeError` with its
message, and any other exception kind. -/
inductive TransportError where
  | invalidHandshake
  | connectionClosed
  | runtimeError (msg : String)
  | other (name : String)
  deriving Repr, DecidableEq

/-- The suspension points of the render body between acquire and return. -/
inductive SuspensionPoint where
  | attach
  | listen
  | navigate
  | wait
  deriving Repr, DecidableEq

/-- What the external world does during one render body: either every step
succeeds yielding HTML, or one designated step times out / raises / is hit
by an external cancellation of the calling task. -/
inductive BodyScenario where
  | success (html : String)
  | attachRaises (e : TransportError)
  | listenTimeout
  | listenRaises (e : TransportError)
  | navigateRaises (e : TransportError)
  | waitTimeout
  | waitRaises (e : TransportError)
  | cancelledAt (k : SuspensionPoint)
  deriving Repr, DecidableEq

/-- The outcome of `Prerender.render` as seen by the caller:
the HTML, or the exception that propagates. `noBrowserAvailable` is the
`RuntimeError('No browser available')` of line 46; `timeoutError` is the
`asyncio.TimeoutError` that escapes from `wait_for(page.wait(), ...)`;
`transportError e` is an exception of the body propagating unchanged;
`cancelled` is the `CancelledError` of an externally cancelled call. -/
inductive RenderResult where
  | ok (html : String)
  | noBrowserAvailable
  | temporaryBrowserFailure (msg : String)
  | timeoutError
  | transportError (e : TransportError)
  | cancelled
  deriving Repr, DecidableEq

/-- Helper for the Python `pat in s` substring test: does `pat` occur as a
contiguous sublist of `l`? -/
def charsContain (pat : List Char) : List Char → Bool
  | [] => pat.isPrefixOf []
  | c :: t => pat.isPrefixOf (c :: t) || charsContain pat t

/-- Embeds the Python substring test `pat in s`. -/
def containsSubstring (s pat : String) : Bool :=
  charsContain pat.toList s.toList

/-- The message checked by the `except RuntimeError` clause (line 75),
from uvloop issue 68. -/
def uvloopMsg : String := "unable to perform operation"

/-- The outer `except` clauses of `Prerender.render` (lines 65-79) applied
to an exception `e` escaping the body: returns the `reopen` flag they set
and the exception that propagates to the caller.
`InvalidHandshake` and `ConnectionClosed` become `TemporaryBrowserFailure`
with `reopen = true`; a `RuntimeError` whose message contains
`uvloopMsg` becomes `TemporaryBrowserFailure` with `reopen = true`;
everything else is re-raised unchanged with `reopen` untouched (false). -/
def classify (e : TransportError) : Bool × RenderResult :=
  match e with
  | .invalidHandshake => (true, .temporaryBrowserFailure "Invalid handshake")
  | .connectionClosed =>
      (true, .temporaryBrowserFailure "Chrome remote debugging connection closed")
  | .runtimeError msg =>
      if containsSubstring msg uvloopMsg then
        (true, .temporaryBrowserFailure msg)
      else
        (false, .transportError (.runtimeError msg))
  | .other name => (false, .transportError (.other name))

/-- The body of `Prerender.render` between a successful acquire and the
`finally` (lines 53-79): attach, listen (1s timeout), navigate, wait
(render timeout), with the `except` clauses applied. Returns the result
propagated to the caller, the `reopen` flag at entry to the `finally`
block, the page as left by the body (attach opens its transport), and the
trace of operations performed. A listen timeout sets `reopen = true` and
raises `TemporaryBrowserFailure` (lines 57-61); a wait timeout propagates
the plain `asyncio.TimeoutError` (line 63, not caught by any `except`
clause); an external cancellation at any suspension point propagates
`CancelledError` (caught by no clause), still reaching the `finally`. -/
def renderBody (url : String) (page : Page) (sc : BodyScenario) :
    RenderResult × Bool × Page × List Effect :=
  let pOpen : Page := { page with websocket := true }
  let preNav : List Effect := [.attach page.id, .listen page.id]
  let postNav : List Effect := preNav ++ [.navigate page.id url]
  match sc with
  | .attachRaises e =>
      ((classify e).2, (classify e).1, page, [.attach page.id])
  | .cancelledAt .attach => (.cancelled, false, page, [.attach page.id])
  | .listenTimeout =>
      (.temporaryBrowserFailure "Attach to Chrome page timed out", true, pOpen, preNav)
  | .listenRaises e =>
      ((classify e).2, (classify e).1, pOpen, preNav)
  | .cancelledAt .listen => (.cancelled, false, pOpen, preNav)
  | .navigateRaises e =>
      ((classify e).2, (classify e).1, pOpen, postNav)
  | .cancelledAt .navigate => (.cancelled, false, pOpen, postNav)
  | .waitTimeout => (.timeoutError, false, pOpen, postNav ++ [.wait page.id])
  | .waitRaises e =>
      ((classify e).2, (classify e).1, pOpen, postNav ++ [.wait page.id])
  | .cancelledAt .wait => (.cancelled, false, pOpen, postNav ++ [.wait page.id])
  | .success html => (.ok html, false, pOpen, postNav ++ [.wait page.id])

/-- Embeds `Prerender._manage_page` (lines 83-101), the release step, run inside
`asyncio.shield(...)` from the `finally` block and hence to completion on
every exit path. `task_done` on the queue; if the page's transport is open,
navigate it to `about:blank` (only when not reopening) and detach; then
either the fast path — put the same page back on the idle queue — or the
replacement path — close the page, remove it from `self._pages`, create a
driver page, sleep 100ms, put the new page on the idle queue and add it to
`self._pages`. -/
def managePage (cfg : Config) (st : PoolState) (page : Page) (reopen : Bool) :
    PoolState × List Effect :=
  let detachTrace : List Effect :=
    if page.websocket then
      (if !reopen then [.navigate page.id "about:blank"] else []) ++ [.detach page.id]
    else []
  let page := if page.websocket then { page with websocket := false } else page
  if !reopen && page.iteration < cfg.maxIterations then
    ({ st with idle := st.idle ++ [page] },
     .taskDone :: detachTrace ++ [.putIdle page.id])
  else
    let fresh := newPage st.nextId
    ({ pages := st.pages.erase page.id ++ [fresh.id]
       idle := st.idle ++ [fresh]
       nextId := st.nextId + 1 },
     .taskDone :: detachTrace ++
       [.close page.id, .newPage fresh.id, .sleepMs 100, .putIdle fresh.id])

/-- Embeds `Prerender.render` (lines 44-81). If `self._pages` is empty, raise
`RuntimeError('No browser available')` before touching the queue. Acquire
from the idle queue with a 10s `wait_for`: in this single-call model no
concurrent release can feed the queue, so an empty queue means the timeout
fires and `TemporaryBrowserFailure('No Chrome page available in 10s')` is
raised; otherwise the head of the queue is handed out immediately. Then
run the body and, on every exit path, the shielded `_manage_page`. -/
def render (cfg : Config) (st : PoolState) (url : String) (sc : BodyScenario) :
    RenderResult × PoolState × List Effect :=
  if st.pages.isEmpty then (.noBrowserAvailable, st, [])
  else
    match st.idle with
    | [] => (.temporaryBrowserFailure "No Chrome page available in 10s", st, [])
    | p :: rest =>
        let b := renderBody url p sc
        let m := managePage cfg { st with idle := rest } b.2.2.1 b.2.1
        (b.1, m.1, b.2.2.2 ++ m.2)

/-- Embeds `Prerender.shutdown` (lines 39-42): `page.close()` on every page of
`self._pages`, then `self._rdp.shutdown()`. The closes destroy the
driver-side tabs (recorded in the trace); neither `self._pages` nor the
idle queue is touched. -/
def shutdown (st : PoolState) : PoolState × List Effect :=
  (st, st.pages.map .close ++ [.rdpShutdown])

/-!
Small-step model of concurrent `render` calls sharing one pool.

The scheduler is cooperative: pool state (`self._pages`, the idle queue)
only changes inside the atomic sections between `await` points. Reading
`render` and `_manage_page`, those mutations are exactly:

* acquire: `self._idle_pages.get()` hands the queue head to one caller
  (line 49);
* fast-path release: `self._idle_pages.put(page)` returns the held page
  (line 91);
* swap begin: `self._pages.remove(page)` after `page.close()` on the
  replacement path (line 95) — from here until re-add the pool is one page
  short;
* swap end: `self._idle_pages.put(page)`, `self._pages.add(page)` for the
  fresh driver page (lines 96-100; no `await` separates the two, so they
  are atomic together).

Pages are identified by their ids; a session holding a page is in
`working` from acquire until its release either re-queues the page or
passes the `self._pages.remove` point, after which it is in `swapping`
until the replacement is added. -/

/-- Shared pool state plus the pages currently held by in-flight `render`
calls, split by whether the call has passed the `self._pages.remove` point
of the replacement path. -/
structure Sys where
  pages : List Nat
  idle : List Nat
  working : List Nat
  swapping : List Nat
  nextId : Nat
  deriving Repr, DecidableEq

/-- Atomic pool-state transitions of concurrent `render` calls; see the
section comment for the source location of each. -/
inductive Step : Sys → Sys → Prop where
  | acquire (s : Sys) (p : Nat) (rest : List Nat) :
      s.idle = p :: rest →
      Step s { s with idle := rest, working := p :: s.working }
  | releaseFast (s : Sys) (p : Nat) :
      p ∈ s.working →
      Step s { s with working := s.working.erase p, idle := s.idle ++ [p] }
  | beginSwap (s : Sys) (p : Nat) :
      p ∈ s.working →
      Step s { s with pages := s.pages.erase p, working := s.working.erase p,
                      swapping := p :: s.swapping }
  | endSwap (s : Sys) (p : Nat) :
      p ∈ s.swapping →
      Step s { s with pages := s.pages ++ [s.nextId], idle := s.idle ++ [s.nextId],
                      swapping := s.swapping.erase p, nextId := s.nextId + 1 }

/-- The system state right after `bootstrap` on a fresh `Prerender`
object: no call in flight, every page idle. -/
def Sys.init (n : Nat) : Sys :=
  { pages := (bootstrapFrom n PoolState.initial).pages
    idle := ((bootstrapFrom n PoolState.initial).idle).map Page.id
    working := []
    swapping := []
    nextId := (bootstrapFrom n PoolState.initial).nextId }

/-- Reachability from the bootstrapped pool of `n` pages. -/
def Reachable (n : Nat) (s : Sys) : Prop :=
  Relation.ReflTransGen Step (Sys.init n) s

/-- The inductive pool invariant for a pool bootstrapped with `n` pages. -/
structure Inv (n : Nat) (s : Sys) : Prop where
  pagesNodup : s.pages.Nodup
  idleNodup : s.idle.Nodup
  workingNodup : s.working.Nodup
  swappingNodup : s.swapping.Nodup
  idleDisjWorking : ∀ p ∈ s.idle, p ∉ s.working
  idleSub : ∀ p ∈ s.idle, p ∈ s.pages
  workingSub : ∀ p ∈ s.working, p ∈ s.pages
  swappingOut : ∀ p ∈ s.swapping, p ∉ s.pages
  countIdle : s.idle.length + s.working.length = s.pages.length
  countPages : s.pages.length + s.swapping.length = n
  pagesLt : ∀ p ∈ s.pages, p < s.nextId
  swappingLt : ∀ p ∈ s.swapping, p < s.nextId

/-- The transport-layer failures recognized by the `except` clauses of
`render` (lines 65-79): invalid handshake, connection closed, and a
`RuntimeError` whose message contains `uvloopMsg`. -/
def recognizedError : TransportError → Bool
  | .invalidHandshake => true
  | .connectionClosed => true
  | .runtimeError msg => containsSubstring msg uvloopMsg
  | .other _ => false

/-- The body scenarios that `render` converts to `TemporaryBrowserFailure`
with `reopen = true`: the 1s attach-readiness (`listen`) timeout, and a
recognized transport failure raised at any step of the body. -/
def recognizedScenario : BodyScenario → Bool
  | .listenTimeout => true
  | .attachRaises e => recognizedError e
  | .listenRaises e => recognizedError e
  | .navigateRaises e => recognizedError e
  | .waitRaises e => recognizedError e
  | _ => false

/-- The transport exception raised by the body in scenario `sc`, when the
scenario raises one (as opposed to succeeding, timing out on `wait`, or
being cancelled). -/
def scenarioError : BodyScenario → Option TransportError
  | .attachRaises e => some e
  | .listenRaises e => some e
  | .navigateRaises e => some e
  | .waitRaises e => some e
  | _ => none

theorem renderBody_page (url : String) (p : Page) (sc : BodyScenario) :
    (renderBody url p sc).2.2.1.id = p.id ∧
    (renderBody url p sc).2.2.1.iteration = p.iteration := by
  cases sc
  case cancelledAt k => cases k <;> exact ⟨rfl, rfl⟩
  all_goals exact ⟨rfl, rfl⟩

theorem renderBody_trace_cons (url : String) (p : Page) (sc : BodyScenario) :
    ∃ t, (renderBody url p sc).2.2.2 = Effect.attach p.id :: t := by
  cases sc
  case cancelledAt k => cases k <;> exact ⟨_, rfl⟩
  all_goals exact ⟨_, rfl⟩

theorem taskDone_mem_managePage (cfg : Config) (st : PoolState) (page : Page)
    (reopen : Bool) : Effect.taskDone ∈ (managePage cfg st page reopen).2 := by
  simp only [managePage]
  split <;> split <;> simp

theorem managePage_fst_fast (cfg : Config) (st : PoolState) (page : Page)
    (h : page.iteration < cfg.maxIterations) :
    (managePage cfg st page false).1 =
      { st with idle := st.idle ++ [{ page with websocket := false }] } := by
  cases page with
  | mk i ws it => cases ws <;> simp [managePage, h]

theorem managePage_fst_swap (cfg : Config) (st : PoolState) (page : Page) (reopen : Bool)
    (h : reopen = true ∨ cfg.maxIterations ≤ page.iteration) :
    (managePage cfg st page reopen).1 =
      { pages := st.pages.erase page.id ++ [st.nextId]
        idle := st.idle ++ [newPage st.nextId]
        nextId := st.nextId + 1 } := by
  have hcond : (!reopen && decide (page.iteration < cfg.maxIterations)) = false := by
    rcases h with rfl | hle
    · rfl
    · simp [decide_eq_false (Nat.not_lt.mpr hle)]
  cases page with
  | mk i ws it => cases ws <;> simp [managePage, hcond, newPage]

theorem managePage_snd_swap (cfg : Config) (st : PoolState) (page : Page) (reopen : Bool)
    (h : reopen = true ∨ cfg.maxIterations ≤ page.iteration) :
    (managePage cfg st page reopen).2 =
      Effect.taskDone ::
        ((if page.websocket then
            (if !reopen then [Effect.navigate page.id "about:blank"] else []) ++
              [Effect.detach page.id]
          else []) ++
          [Effect.close page.id, Effect.newPage st.nextId, Effect.sleepMs 100,
            Effect.putIdle st.nextId]) := by
  have hcond : (!reopen && decide (page.iteration < cfg.maxIterations)) = false := by
    rcases h with rfl | hle
    · rfl
    · simp [decide_eq_false (Nat.not_lt.mpr hle)]
  cases page with
  | mk i ws it => cases ws <;> simp [managePage, hcond, newPage]

theorem nodupSnoc {l : List Nat} {a : Nat} (h : l.Nodup) (ha : a ∉ l) :
    (l ++ [a]).Nodup := by
  refine List.nodup_append.mpr ⟨h, List.nodup_singleton a, ?_⟩
  intro x hx hx'
  rcases List.mem_singleton.mp hx' with rfl
  exact ha hx

theorem bootstrapFrom_eq (n : Nat) (st : PoolState) :
    bootstrapFrom n st =
      { pages := st.pages ++ List.range' st.nextId n
        idle := st.idle ++ (List.range' st.nextId n).map newPage
        nextId := st.nextId + n } := by
  induction n generalizing st with
  | zero => simp [bootstrapFrom]
  | succ n ih =>
      rw [bootstrapFrom, ih]
      simp [List.range'_succ, List.append_assoc]
      omega

theorem Sys.init_eq (n : Nat) :
    Sys.init n =
      { pages := List.range' 0 n, idle := List.range' 0 n,
        working := [], swapping := [], nextId := n } := by
  simp [Sys.init, bootstrapFrom_eq, PoolState.initial, List.map_map,
    Function.comp_def, newPage]

theorem inv_init (n : Nat) : Inv n (Sys.init n) := by
  rw [Sys.init_eq]
  refine ⟨List.nodup_range' 0 n, List.nodup_range' 0 n, List.nodup_nil,
    List.nodup_nil, ?_, ?_, ?_, ?_, ?_, ?_, ?_, ?_⟩
  · intro p _ hp
    exact absurd hp (List.not_mem_nil p)
  · intro p hp
    exact hp
  · intro p hp
    exact absurd hp (List.not_mem_nil p)
  · intro p hp
    exact absurd hp (List.not_mem_nil p)
  · rfl
  · simp [List.length_range']
  · intro p hp
    have := List.mem_range'_1.mp hp
    show p < n
    omega
  · intro p hp
    exact absurd hp (List.not_mem_nil p)

theorem step_inv {n : Nat} {s t : Sys} (h : Step s t) (inv : Inv n s) : Inv n t := by
  obtain ⟨hpN, hiN, hwN, hsN, hdj, hiS, hwS, hsO, hc1, hc2, hpL, hsL⟩ := inv
  cases h with
  | acquire p rest hidle =>
      have hpIdle : p ∈ s.idle := hidle ▸ List.mem_cons_self p rest
      have hpW : p ∉ s.working := hdj p hpIdle
      have hpP : p ∈ s.pages := hiS p hpIdle
      have hrN : rest.Nodup := by
        rw [hidle] at hiN
        exact (List.nodup_cons.mp hiN).2
      have hpr : p ∉ rest := by
        rw [hidle] at hiN
        exact (List.nodup_cons.mp hiN).1
      refine ⟨hpN, hrN, List.nodup_cons.mpr ⟨hpW, hwN⟩, hsN, ?_, ?_, ?_, hsO, ?_, hc2, hpL, hsL⟩
      · intro q hq hq'
        have hqIdle : q ∈ s.idle := by
          rw [hidle]
          exact List.mem_cons_of_mem _ hq
        rcases List.mem_cons.mp hq' with rfl | hq''
        · exact hpr hq
        · exact hdj q hqIdle hq''
      · intro q hq
        exact hiS q (by rw [hidle]; exact List.mem_cons_of_mem _ hq)
      · intro q hq
        rcases List.mem_cons.mp hq with rfl | hq'
        · exact hpP
        · exact hwS q hq'
      · have hlen : s.idle.length = rest.length + 1 := by rw [hidle]; rfl
        simp only [List.length_cons]
        omega
  | releaseFast p hp =>
      have hpP : p ∈ s.pages := hwS p hp
      have hpI : p ∉ s.idle := fun hq => hdj p hq hp
      refine ⟨hpN, nodupSnoc hiN hpI, hwN.erase p, hsN, ?_, ?_, ?_, hsO, ?_, hc2, hpL, hsL⟩
      · intro q hq hq'
        rcases List.mem_append.mp hq with hq'' | hq''
        · exact hdj q hq'' (List.mem_of_mem_erase hq')
        · rcases List.mem_singleton.mp hq'' with rfl
          exact ((List.Nodup.mem_erase_iff hwN).mp hq').1 rfl
      · intro q hq
        rcases List.mem_append.mp hq with hq' | hq'
        · exact hiS q hq'
        · rcases List.mem_singleton.mp hq' with rfl
          exact hpP
      · intro q hq
        exact hwS q (List.mem_of_mem_erase hq)
      · have h1 : (s.working.erase p).length = s.working.length - 1 :=
          List.length_erase_of_mem hp
        have h2 : 0 < s.working.length := List.length_pos.mpr (List.ne_nil_of_mem hp)
        simp only [List.length_append, List.length_singleton]
        omega
  | beginSwap p hp =>
      have hpP : p ∈ s.pages := hwS p hp
      have hpI : p ∉ s.idle := fun hq => hdj p hq hp
      have hpSw : p ∉ s.swapping := fun hq => hsO p hq hpP
      refine ⟨hpN.erase p, hiN, hwN.erase p, List.nodup_cons.mpr ⟨hpSw, hsN⟩,
        ?_, ?_, ?_, ?_, ?_, ?_, ?_, ?_⟩
      · intro q hq hq'
        exact hdj q hq (List.mem_of_mem_erase hq')
      · intro q hq
        have hqp : q ≠ p := fun he => hpI (he ▸ hq)
        exact (List.Nodup.mem_erase_iff hpN).mpr ⟨hqp, hiS q hq⟩
      · intro q hq
        have h1 := (List.Nodup.mem_erase_iff hwN).mp hq
        exact (List.Nodup.mem_erase_iff hpN).mpr ⟨h1.1, hwS q h1.2⟩
      · intro q hq
        rcases List.mem_cons.mp hq with rfl | hq'
        · intro hmem
          exact ((List.Nodup.mem_erase_iff hpN).mp hmem).1 rfl
        · intro hmem
          exact hsO q hq' (List.mem_of_mem_erase hmem)
      · have h1 : (s.working.erase p).length = s.working.length - 1 :=
          List.length_erase_of_mem hp
        have h2 : (s.pages.erase p).length = s.pages.length - 1 :=
          List.length_erase_of_mem hpP
        have h3 : 0 < s.working.length := List.length_pos.mpr (List.ne_nil_of_mem hp)
        have h4 : 0 < s.pages.length := List.length_pos.mpr (List.ne_nil_of_mem hpP)
        show s.idle.length + (s.working.erase p).length = (s.pages.erase p).length
        omega
      · have h2 : (s.pages.erase p).length = s.pages.length - 1 :=
          List.length_erase_of_mem hpP
        have h4 : 0 < s.pages.length := List.length_pos.mpr (List.ne_nil_of_mem hpP)
        simp only [List.length_cons]
        omega
      · intro q hq
        exact hpL q (List.mem_of_mem_erase hq)
      · intro q hq
        rcases List.mem_cons.mp hq with rfl | hq'
        · exact hpL _ hpP
        · exact hsL q hq'
  | endSwap p hp =>
      have hNif : s.nextId ∉ s.pages := fun hm => lt_irrefl _ (hpL _ hm)
      have hNii : s.nextId ∉ s.idle := fun hm => hNif (hiS _ hm)
      have hNiw : s.nextId ∉ s.working := fun hm => hNif (hwS _ hm)
      refine ⟨nodupSnoc hpN hNif, nodupSnoc hiN hNii, hwN, hsN.erase p,
        ?_, ?_, ?_, ?_, ?_, ?_, ?_, ?_⟩
      · intro q hq hq'
        rcases List.mem_append.mp hq with hq'' | hq''
        · exact hdj q hq'' hq'
        · rcases List.mem_singleton.mp hq'' with rfl
          exact hNiw hq'
      · intro q hq
        rcases List.mem_append.mp hq with hq' | hq'
        · exact List.mem_append_left _ (hiS q hq')
        · rcases List.mem_singleton.mp hq' with rfl
          exact List.mem_append_right _ (List.mem_singleton_self _)
      · intro q hq
        exact List.mem_append_left _ (hwS q hq)
      · intro q hq
        have hq1 : q ∈ s.swapping := List.mem_of_mem_erase hq
        intro hmem
        rcases List.mem_append.mp hmem with hm | hm
        · exact hsO q hq1 hm
        · rcases List.mem_singleton.mp hm with rfl
          exact lt_irrefl _ (hsL _ hq1)
      · simp only [List.length_append, List.length_singleton]
        omega
      · have h1 : (s.swapping.erase p).length = s.swapping.length - 1 :=
          List.length_erase_of_mem hp
        have h3 : 0 < s.swapping.length := List.length_pos.mpr (List.ne_nil_of_mem hp)
        simp only [List.length_append, List.length_singleton]
        omega
      · intro q hq
        rcases List.mem_append.mp hq with hq' | hq'
        · exact Nat.lt_succ_of_lt (hpL q hq')
        · rcases List.mem_singleton.mp hq' with rfl
          exact Nat.lt_succ_self _
      · intro q hq
        exact Nat.lt_succ_of_lt (hsL q (List.mem_of_mem_erase hq))

theorem reachable_inv {n : Nat} {s : Sys} (h : Reachable n s) : Inv n s := by
  induction h with
  | refl => exact inv_init n
  | tail _ hstep ih => exact step_inv hstep ih

theorem render_cons (cfg : Config) (st : PoolState) (url : String) (sc : BodyScenario)
    (p : Page) (rest : List Page) (hne : st.pages ≠ []) (hidle : st.idle = p :: rest) :
    render cfg st url sc =
      ((renderBody url p sc).1,
       (managePage cfg { st with idle := rest } (renderBody url p sc).2.2.1
          (renderBody url p sc).2.1).1,
       (renderBody url p sc).2.2.2 ++
         (managePage cfg { st with idle := rest } (renderBody url p sc).2.2.1
            (renderBody url p sc).2.1).2) := by
  have h0 : st.pages.isEmpty = false := List.isEmpty_eq_false.mpr hne
  simp [render, h0, hidle]

theorem renderBody_tbf_msgs (url : String) (p : Page) (sc : BodyScenario) (msg : String)
    (h : (renderBody url p sc).1 = .temporaryBrowserFailure msg) :
    msg = "Invalid handshake" ∨
    msg = "Chrome remote debugging connection closed" ∨
    msg = "Attach to Chrome page timed out" ∨
    containsSubstring msg uvloopMsg = true := by
  cases sc
  case success html => simp [renderBody] at h
  case listenTimeout =>
    simp [renderBody] at h
    exact Or.inr (Or.inr (Or.inl h.symm))
  case waitTimeout => simp [renderBody] at h
  case cancelledAt k => cases k <;> simp [renderBody] at h
  all_goals (
    rename_i e
    cases e with
    | invalidHandshake =>
        simp [renderBody, classify] at h
        exact Or.inl h.symm
    | connectionClosed =>
        simp [renderBody, classify] at h
        exact Or.inr (Or.inl h.symm)
    | runtimeError m =>
        by_cases hc : containsSubstring m uvloopMsg
        · simp [renderBody, classify, hc] at h
          exact Or.inr (Or.inr (Or.inr (h ▸ hc)))
        · simp [renderBody, classify, hc] at h
    | other n => simp [renderBody, classify] at h)

theorem renderBody_not_noBrowser (url : String) (p : Page) (sc : BodyScenario) :
    (renderBody url p sc).1 ≠ .noBrowserAvailable := by
  cases sc
  case success html => simp [renderBody]
  case listenTimeout => simp [renderBody]
  case waitTimeout => simp [renderBody]
  case cancelledAt k => cases k <;> simp [renderBody]
  all_goals (
    rename_i e
    cases e with
    | runtimeError m =>
        by_cases hc : containsSubstring m uvloopMsg <;>
          simp [renderBody, classify, hc]
    | _ => simp [renderBody, classify])

/-- C1: at every reachable state of the concurrent pool, the number of
idle pages plus the number of checked-out pages equals the size of the
pages set, no page is in the idle queue more than once, no page is held by
two concurrent render calls (the held pages are pairwise distinct), and
the pages set has exactly the bootstrapped size whenever no release is
mid-swap — i.e. except momentarily during a replacement swap. -/
theorem C1_pool_invariant (n : Nat) (s : Sys) (h : Reachable n s) :
    s.idle.length + s.working.length = s.pages.length ∧
    s.idle.Nodup ∧
    s.working.Nodup ∧
    (s.swapping = [] → s.pages.length = n) := by
  have inv := reachable_inv h
  refine ⟨inv.countIdle, inv.idleNodup, inv.workingNodup, ?_⟩
  intro he
  have hc := inv.countPages
  rw [he] at hc
  simpa using hc

/-- Witness for C1 at the bootstrapped pool of two pages. -/
theorem C1_pool_invariant_witness :
    (Sys.init 2).idle.length + (Sys.init 2).working.length = (Sys.init 2).pages.length ∧
    (Sys.init 2).idle.Nodup ∧
    (Sys.init 2).working.Nodup ∧
    ((Sys.init 2).swapping = [] → (Sys.init 2).pages.length = 2) :=
  C1_pool_invariant 2 (Sys.init 2) Relation.ReflTransGen.refl

/-- C2: every render call that acquires a page runs the shielded release
step on every exit path — success, every error scenario, and external
cancellation at any suspension point are all covered by the quantification
over `BodyScenario` — so the acquired page afterwards sits in the idle
queue again, or has been removed from the pool with a fresh replacement
sitting in the idle queue; it is never lost. -/
theorem C2_release_always_runs (cfg : Config) (st : PoolState) (url : String)
    (sc : BodyScenario) (p : Page) (rest : List Page)
    (hidle : st.idle = p :: rest) (hmem : p.id ∈ st.pages)
    (hnodup : st.pages.Nodup) (hfresh : ∀ q ∈ st.pages, q < st.nextId) :
    Effect.taskDone ∈ (render cfg st url sc).2.2 ∧
    ((∃ q ∈ (render cfg st url sc).2.1.idle, q.id = p.id) ∨
      (p.id ∉ (render cfg st url sc).2.1.pages ∧
        ∃ q ∈ (render cfg st url sc).2.1.idle,
          q.id = st.nextId ∧ q.id ∈ (render cfg st url sc).2.1.pages)) := by
  have hne : st.pages ≠ [] := List.ne_nil_of_mem hmem
  rw [render_cons cfg st url sc p rest hne hidle]
  constructor
  · exact List.mem_append_right _ (taskDone_mem_managePage _ _ _ _)
  · have key : (renderBody url p sc).2.1 = true ∨
        cfg.maxIterations ≤ (renderBody url p sc).2.2.1.iteration →
        p.id ∉ (managePage cfg { st with idle := rest } (renderBody url p sc).2.2.1
            (renderBody url p sc).2.1).1.pages ∧
        ∃ q ∈ (managePage cfg { st with idle := rest } (renderBody url p sc).2.2.1
            (renderBody url p sc).2.1).1.idle,
          q.id = st.nextId ∧
          q.id ∈ (managePage cfg { st with idle := rest } (renderBody url p sc).2.2.1
              (renderBody url p sc).2.1).1.pages := by
      intro hsw
      rw [managePage_fst_swap cfg { st with idle := rest } (renderBody url p sc).2.2.1
        (renderBody url p sc).2.1 hsw]
      refine ⟨?_, newPage st.nextId,
        List.mem_append_right _ (List.mem_singleton_self _), rfl,
        List.mem_append_right _ (List.mem_singleton_self _)⟩
      intro hm
      rcases List.mem_append.mp hm with hm' | hm'
      · have hm2 : p.id ∈ st.pages.erase p.id := by
          have hid := (renderBody_page url p sc).1
          rw [hid] at hm'
          exact hm'
        exact ((List.Nodup.mem_erase_iff hnodup).mp hm2).1 rfl
      · exact absurd (List.mem_singleton.mp hm') (Nat.ne_of_lt (hfresh _ hmem))
    rcases Bool.eq_false_or_eq_true (renderBody url p sc).2.1 with hro | hro
    · exact Or.inr (key (Or.inl hro))
    · by_cases hit : (renderBody url p sc).2.2.1.iteration < cfg.maxIterations
      · left
        rw [hro, managePage_fst_fast cfg { st with idle := rest }
          (renderBody url p sc).2.2.1 hit]
        exact ⟨{ (renderBody url p sc).2.2.1 with websocket := false },
          List.mem_append_right _ (List.mem_singleton_self _),
          (renderBody_page url p sc).1⟩
      · exact Or.inr (key (Or.inr (Nat.not_lt.mp hit)))

/-- Witness for C2 at a one-page pool and a successful render. -/
theorem C2_release_always_runs_witness :
    Effect.taskDone ∈
      (render ⟨30, 2, 200⟩ ⟨[0], [⟨0, false, 0⟩], 1⟩ "u" (.success "h")).2.2 ∧
    ((∃ q ∈ (render ⟨30, 2, 200⟩ ⟨[0], [⟨0, false, 0⟩], 1⟩ "u" (.success "h")).2.1.idle,
        q.id = (⟨0, false, 0⟩ : Page).id) ∨
      ((⟨0, false, 0⟩ : Page).id ∉
          (render ⟨30, 2, 200⟩ ⟨[0], [⟨0, false, 0⟩], 1⟩ "u" (.success "h")).2.1.pages ∧
        ∃ q ∈ (render ⟨30, 2, 200⟩ ⟨[0], [⟨0, false, 0⟩], 1⟩ "u" (.success "h")).2.1.idle,
          q.id = 1 ∧
          q.id ∈ (render ⟨30, 2, 200⟩ ⟨[0], [⟨0, false, 0⟩], 1⟩ "u"
              (.success "h")).2.1.pages)) :=
  C2_release_always_runs ⟨30, 2, 200⟩ ⟨[0], [⟨0, false, 0⟩], 1⟩ "u" (.success "h")
    ⟨0, false, 0⟩ [] rfl (by decide) (by decide) (by decide)

/-- C3: the render body converts exactly the four recognized failure kinds
— invalid transport handshake, transport connection closed, the
driver-internal `RuntimeError` whose message contains
"unable to perform operation" (the spec's "operation not permitted"
condition), and the 1s attach-readiness timeout — into
`TemporaryBrowserFailure` with `reopen = true`; in every other scenario
`reopen` stays false and a raised error propagates to the caller
unchanged (never as `TemporaryBrowserFailure`), a wait timeout
propagating as the plain timeout error. -/
theorem C3_failure_classification (url : String) (p : Page) (sc : BodyScenario) :
    ((renderBody url p sc).2.1 = recognizedScenario sc) ∧
    (recognizedScenario sc = true →
      ∃ msg, (renderBody url p sc).1 = .temporaryBrowserFailure msg) ∧
    (recognizedScenario sc = false →
      (∀ msg, (renderBody url p sc).1 ≠ .temporaryBrowserFailure msg) ∧
      (∀ e, scenarioError sc = some e →
        (renderBody url p sc).1 = .transportError e) ∧
      (sc = .waitTimeout → (renderBody url p sc).1 = .timeoutError)) := by
  cases sc
  case success html => simp [renderBody, recognizedScenario, scenarioError]
  case listenTimeout => simp [renderBody, recognizedScenario, scenarioError]
  case waitTimeout => simp [renderBody, recognizedScenario, scenarioError]
  case cancelledAt k =>
    cases k <;> simp [renderBody, recognizedScenario, scenarioError]
  all_goals (
    rename_i e
    cases e with
    | runtimeError m =>
        by_cases hc : containsSubstring m uvloopMsg <;>
          simp [renderBody, classify, recognizedScenario, recognizedError,
            scenarioError, hc]
    | _ =>
        simp [renderBody, classify, recognizedScenario, recognizedError,
          scenarioError])

/-- Witness for C3 at a recognized failure (invalid handshake). -/
theorem C3_failure_classification_witness :
    ((renderBody "u" ⟨0, false, 0⟩ (.attachRaises .invalidHandshake)).2.1 =
      recognizedScenario (.attachRaises .invalidHandshake)) ∧
    (recognizedScenario (.attachRaises .invalidHandshake) = true →
      ∃ msg, (renderBody "u" ⟨0, false, 0⟩ (.attachRaises .invalidHandshake)).1 =
        .temporaryBrowserFailure msg) ∧
    (recognizedScenario (.attachRaises .invalidHandshake) = false →
      (∀ msg, (renderBody "u" ⟨0, false, 0⟩ (.attachRaises .invalidHandshake)).1 ≠
        .temporaryBrowserFailure msg) ∧
      (∀ e, scenarioError (.attachRaises .invalidHandshake) = some e →
        (renderBody "u" ⟨0, false, 0⟩ (.attachRaises .invalidHandshake)).1 =
          .transportError e) ∧
      ((.attachRaises .invalidHandshake) = BodyScenario.waitTimeout →
        (renderBody "u" ⟨0, false, 0⟩ (.attachRaises .invalidHandshake)).1 =
          .timeoutError)) :=
  C3_failure_classification "u" ⟨0, false, 0⟩ (.attachRaises .invalidHandshake)

/-- C4 counterexample: a successful render call (reopen false) on a page
with iteration counter 5, below max-iterations 200, releases the page back
to idle with its counter still 5, not 6 — the release step performs no
increment. -/
theorem C4_counterexample :
    (render ⟨30, 2, 200⟩ ⟨[0], [⟨0, false, 5⟩], 1⟩ "u"
        (.success "h")).2.1.idle.map Page.iteration ≠ [5 + 1] ∧
    (render ⟨30, 2, 200⟩ ⟨[0], [⟨0, false, 5⟩], 1⟩ "u"
        (.success "h")).2.1.idle.map Page.iteration = [5] ∧
    (renderBody "u" (⟨0, false, 5⟩ : Page) (.success "h")).2.1 = false := by
  decide

/-- C4 (amended): for every render call that ends with reopen false and
whose page's iteration counter is below max-iterations, the release step
returns the same page (same id, transport detached) to the idle queue
with its iteration counter unchanged — the per-render increment is
maintained by the Page object in `chromerdp.py`, outside this module, not
by the release step — and performs no close and no replacement. -/
theorem C4_fast_path_no_increment (cfg : Config) (st : PoolState) (page : Page)
    (h : page.iteration < cfg.maxIterations) :
    (managePage cfg st page false).1 =
      { st with idle := st.idle ++ [{ page with websocket := false }] } ∧
    ({ page with websocket := false } : Page).id = page.id ∧
    ({ page with websocket := false } : Page).iteration = page.iteration ∧
    Effect.close page.id ∉ (managePage cfg st page false).2 ∧
    (managePage cfg st page false).1.pages = st.pages := by
  refine ⟨managePage_fst_fast cfg st page h, rfl, rfl, ?_, ?_⟩
  · obtain ⟨i, ws, it⟩ := page
    cases ws <;> simp [managePage, h]
  · rw [managePage_fst_fast cfg st page h]

/-- Witness for the amended C4 on a concrete fast-path release. -/
theorem C4_fast_path_no_increment_witness :
    (3 : Nat) < 200 ∧
    ((managePage ⟨30, 2, 200⟩ ⟨[0], [], 1⟩ ⟨0, false, 3⟩ false).1 =
        { pages := [0], idle := [⟨0, false, 3⟩], nextId := 1 } ∧
      ((⟨0, false, 3⟩ : Page).id = (⟨0, false, 3⟩ : Page).id) ∧
      ((⟨0, false, 3⟩ : Page).iteration = (⟨0, false, 3⟩ : Page).iteration) ∧
      Effect.close 0 ∉ (managePage ⟨30, 2, 200⟩ ⟨[0], [], 1⟩ ⟨0, false, 3⟩ false).2 ∧
      (managePage ⟨30, 2, 200⟩ ⟨[0], [], 1⟩ ⟨0, false, 3⟩ false).1.pages = [0]) :=
  ⟨by decide, C4_fast_path_no_increment ⟨30, 2, 200⟩ ⟨[0], [], 1⟩ ⟨0, false, 3⟩ (by decide)⟩

/-- C5: when reopen is true or the page's iteration counter has reached
max-iterations, the release step closes the page, removes it from the
pages set, creates one replacement via the driver, sleeps the 100ms grace
period, and adds the replacement (iteration counter 0) to both the pages
set and the idle queue; the released page itself is never put back on the
idle queue in that call. -/
theorem C5_replacement_path (cfg : Config) (st : PoolState) (page : Page)
    (reopen : Bool) (h : reopen = true ∨ cfg.maxIterations ≤ page.iteration)
    (hnodup : st.pages.Nodup) (hfresh : page.id ≠ st.nextId) :
    (managePage cfg st page reopen).1.pages = st.pages.erase page.id ++ [st.nextId] ∧
    page.id ∉ (managePage cfg st page reopen).1.pages ∧
    (managePage cfg st page reopen).1.idle = st.idle ++ [newPage st.nextId] ∧
    (newPage st.nextId).iteration = 0 ∧
    st.nextId ∈ (managePage cfg st page reopen).1.pages ∧
    Effect.close page.id ∈ (managePage cfg st page reopen).2 ∧
    Effect.newPage st.nextId ∈ (managePage cfg st page reopen).2 ∧
    Effect.sleepMs 100 ∈ (managePage cfg st page reopen).2 ∧
    Effect.putIdle page.id ∉ (managePage cfg st page reopen).2 := by
  have hswap := managePage_fst_swap cfg st page reopen h
  have hcond : (!reopen && decide (page.iteration < cfg.maxIterations)) = false := by
    rcases h with rfl | hle
    · rfl
    · simp [decide_eq_false (Nat.not_lt.mpr hle)]
  have hsnd := managePage_snd_swap cfg st page reopen h
  refine ⟨by rw [hswap], ?_, by rw [hswap], rfl, ?_, ?_, ?_, ?_, ?_⟩
  · rw [hswap]
    intro hm
    rcases List.mem_append.mp hm with hm' | hm'
    · exact ((List.Nodup.mem_erase_iff hnodup).mp hm').1 rfl
    · exact hfresh (List.mem_singleton.mp hm')
  · rw [hswap]
    exact List.mem_append_right _ (List.mem_singleton_self _)
  · rw [hsnd]
    obtain ⟨i, ws, it⟩ := page
    cases ws <;> simp
  · rw [hsnd]
    obtain ⟨i, ws, it⟩ := page
    cases ws <;> simp
  · rw [hsnd]
    obtain ⟨i, ws, it⟩ := page
    cases ws <;> simp
  · rw [hsnd]
    obtain ⟨i, ws, it⟩ := page
    cases ws <;> cases reopen <;> simp [hfresh]

/-- Witness for C5: a page at the iteration cap is swapped out. -/
theorem C5_replacement_path_witness :
    (false = true ∨ (2 : Nat) ≤ 2) ∧
    ((managePage ⟨30, 2, 2⟩ ⟨[0], [], 1⟩ ⟨0, true, 2⟩ false).1.pages =
        ([0] : List Nat).erase 0 ++ [1] ∧
      (0 : Nat) ∉ (managePage ⟨30, 2, 2⟩ ⟨[0], [], 1⟩ ⟨0, true, 2⟩ false).1.pages ∧
      (managePage ⟨30, 2, 2⟩ ⟨[0], [], 1⟩ ⟨0, true, 2⟩ false).1.idle =
        [] ++ [newPage 1] ∧
      (newPage 1).iteration = 0 ∧
      (1 : Nat) ∈ (managePage ⟨30, 2, 2⟩ ⟨[0], [], 1⟩ ⟨0, true, 2⟩ false).1.pages ∧
      Effect.close 0 ∈ (managePage ⟨30, 2, 2⟩ ⟨[0], [], 1⟩ ⟨0, true, 2⟩ false).2 ∧
      Effect.newPage 1 ∈ (managePage ⟨30, 2, 2⟩ ⟨[0], [], 1⟩ ⟨0, true, 2⟩ false).2 ∧
      Effect.sleepMs 100 ∈ (managePage ⟨30, 2, 2⟩ ⟨[0], [], 1⟩ ⟨0, true, 2⟩ false).2 ∧
      Effect.putIdle 0 ∉ (managePage ⟨30, 2, 2⟩ ⟨[0], [], 1⟩ ⟨0, true, 2⟩ false).2) :=
  ⟨Or.inr (by decide),
    C5_replacement_path ⟨30, 2, 2⟩ ⟨[0], [], 1⟩ ⟨0, true, 2⟩ false
      (Or.inr (by decide)) (by decide) (by decide)⟩

/-- C6: a timeout of the wait-for-render step propagates as the plain
timeout error, which is distinct from every `TemporaryBrowserFailure`;
reopen stays false, and since the page's iteration counter is below
max-iterations the page goes back to the idle queue with the pages set
unchanged (no replacement). -/
theorem C6_render_timeout_plain (cfg : Config) (st : PoolState) (url : String)
    (p : Page) (rest : List Page) (hidle : st.idle = p :: rest)
    (hmem : p.id ∈ st.pages) (hiter : p.iteration < cfg.maxIterations) :
    (render cfg st url .waitTimeout).1 = .timeoutError ∧
    (∀ msg, (render cfg st url .waitTimeout).1 ≠ .temporaryBrowserFailure msg) ∧
    (renderBody url p .waitTimeout).2.1 = false ∧
    (render cfg st url .waitTimeout).2.1.idle = rest ++ [{ p with websocket := false }] ∧
    (render cfg st url .waitTimeout).2.1.pages = st.pages := by
  have hne : st.pages ≠ [] := List.ne_nil_of_mem hmem
  rw [render_cons cfg st url .waitTimeout p rest hne hidle]
  refine ⟨rfl, ?_, rfl, ?_, ?_⟩
  · intro msg hq
    exact RenderResult.noConfusion hq
  · show (managePage cfg { st with idle := rest } { p with websocket := true }
        false).1.idle = rest ++ [{ p with websocket := false }]
    rw [managePage_fst_fast cfg { st with idle := rest } { p with websocket := true } hiter]
  · show (managePage cfg { st with idle := rest } { p with websocket := true }
        false).1.pages = st.pages
    rw [managePage_fst_fast cfg { st with idle := rest } { p with websocket := true } hiter]

/-- Witness for C6 at a one-page pool. -/
theorem C6_render_timeout_plain_witness :
    (render ⟨30, 2, 200⟩ ⟨[0], [⟨0, false, 0⟩], 1⟩ "u" .waitTimeout).1 = .timeoutError ∧
    (∀ msg, (render ⟨30, 2, 200⟩ ⟨[0], [⟨0, false, 0⟩], 1⟩ "u" .waitTimeout).1 ≠
      .temporaryBrowserFailure msg) ∧
    (renderBody "u" (⟨0, false, 0⟩ : Page) .waitTimeout).2.1 = false ∧
    (render ⟨30, 2, 200⟩ ⟨[0], [⟨0, false, 0⟩], 1⟩ "u" .waitTimeout).2.1.idle =
      [] ++ [⟨0, false, 0⟩] ∧
    (render ⟨30, 2, 200⟩ ⟨[0], [⟨0, false, 0⟩], 1⟩ "u" .waitTimeout).2.1.pages = [0] :=
  C6_render_timeout_plain ⟨30, 2, 200⟩ ⟨[0], [⟨0, false, 0⟩], 1⟩ "u"
    ⟨0, false, 0⟩ [] rfl (by decide) (by decide)

/-- C7: calling render before bootstrap (the freshly constructed state) or
whenever the pages set is empty raises `RuntimeError('No browser
available')` immediately: the pool state is untouched and no operation —
in particular no wait on the idle queue — is performed. -/
theorem C7_no_browser_available (cfg : Config) (st : PoolState) (url : String)
    (sc : BodyScenario) (h : st.pages = []) :
    render cfg st url sc = (.noBrowserAvailable, st, []) ∧
    render cfg PoolState.initial url sc = (.noBrowserAvailable, PoolState.initial, []) := by
  constructor
  · simp [render, h]
  · simp [render, PoolState.initial]

/-- Witness for C7 on the un-bootstrapped state. -/
theorem C7_no_browser_available_witness :
    render ⟨30, 2, 200⟩ PoolState.initial "u" (.success "h") =
      (.noBrowserAvailable, PoolState.initial, []) ∧
    render ⟨30, 2, 200⟩ PoolState.initial "u" (.success "h") =
      (.noBrowserAvailable, PoolState.initial, []) :=
  C7_no_browser_available ⟨30, 2, 200⟩ PoolState.initial "u" (.success "h") rfl

/-- C8: on a non-empty pool, when no page is in (or, in this single-call
model, ever arrives on) the idle queue, the 10s acquire wait fails with
`TemporaryBrowserFailure('No Chrome page available in 10s')` and nothing
else happens; when the idle queue is non-empty its head page is acquired —
the call proceeds to attach exactly that page, and the acquire-timeout
failure is never raised. -/
theorem C8_acquire_timeout (cfg : Config) (st : PoolState) (url : String)
    (sc : BodyScenario) (hpages : st.pages ≠ []) :
    (st.idle = [] →
      render cfg st url sc =
        (.temporaryBrowserFailure "No Chrome page available in 10s", st, [])) ∧
    (∀ p rest, st.idle = p :: rest →
      (render cfg st url sc).2.2.head? = some (.attach p.id) ∧
      (render cfg st url sc).1 ≠
        .temporaryBrowserFailure "No Chrome page available in 10s") := by
  have h0 : st.pages.isEmpty = false := List.isEmpty_eq_false.mpr hpages
  constructor
  · intro hidle
    simp [render, h0, hidle]
  · intro p rest hidle
    rw [render_cons cfg st url sc p rest hpages hidle]
    obtain ⟨t, ht⟩ := renderBody_trace_cons url p sc
    constructor
    · rw [ht]
      rfl
    · intro heq
      rcases renderBody_tbf_msgs url p sc _ heq with h1 | h1 | h1 | h1
      · exact absurd h1 (by decide)
      · exact absurd h1 (by decide)
      · exact absurd h1 (by decide)
      · exact absurd h1 (by decide)

/-- Witness for C8: empty idle queue on a non-empty pool times out. -/
theorem C8_acquire_timeout_witness :
    (([] : List Page) = [] →
      render ⟨30, 2, 200⟩ ⟨[0], [], 1⟩ "u" (.success "h") =
        (.temporaryBrowserFailure "No Chrome page available in 10s",
          (⟨[0], [], 1⟩ : PoolState), [])) ∧
    (∀ p rest, ([] : List Page) = p :: rest →
      (render ⟨30, 2, 200⟩ ⟨[0], [], 1⟩ "u" (.success "h")).2.2.head? =
        some (.attach p.id) ∧
      (render ⟨30, 2, 200⟩ ⟨[0], [], 1⟩ "u" (.success "h")).1 ≠
        .temporaryBrowserFailure "No Chrome page available in 10s") :=
  C8_acquire_timeout ⟨30, 2, 200⟩ ⟨[0], [], 1⟩ "u" (.success "h") (by decide)

/-- C9 (implicit): shutdown closes every owned page (and only records
those closes — it removes nothing from the pages set and leaves the idle
queue untouched), so a later render call does not fail with
`NoBrowserAvailable`: it acquires the closed head of the idle queue and
proceeds to attach it. -/
theorem C9_shutdown_keeps_pool (cfg : Config) (st : PoolState) (url : String)
    (sc : BodyScenario) (p : Page) (rest : List Page)
    (hidle : st.idle = p :: rest) (hmem : p.id ∈ st.pages) :
    (shutdown st).1 = st ∧
    (∀ i ∈ st.pages, Effect.close i ∈ (shutdown st).2) ∧
    Effect.close p.id ∈ (shutdown st).2 ∧
    (render cfg (shutdown st).1 url sc).1 ≠ .noBrowserAvailable ∧
    (render cfg (shutdown st).1 url sc).2.2.head? = some (.attach p.id) := by
  have hne : st.pages ≠ [] := List.ne_nil_of_mem hmem
  refine ⟨rfl, ?_, ?_, ?_, ?_⟩
  · intro i hi
    exact List.mem_append_left _ (List.mem_map_of_mem _ hi)
  · exact List.mem_append_left _ (List.mem_map_of_mem _ hmem)
  · show (render cfg st url sc).1 ≠ .noBrowserAvailable
    rw [render_cons cfg st url sc p rest hne hidle]
    exact renderBody_not_noBrowser url p sc
  · show (render cfg st url sc).2.2.head? = some (.attach p.id)
    rw [render_cons cfg st url sc p rest hne hidle]
    obtain ⟨t, ht⟩ := renderBody_trace_cons url p sc
    rw [ht]
    rfl

/-- Witness for C9 at a one-page pool. -/
theorem C9_shutdown_keeps_pool_witness :
    (shutdown ⟨[0], [⟨0, false, 0⟩], 1⟩).1 = (⟨[0], [⟨0, false, 0⟩], 1⟩ : PoolState) ∧
    (∀ i ∈ ([0] : List Nat), Effect.close i ∈ (shutdown ⟨[0], [⟨0, false, 0⟩], 1⟩).2) ∧
    Effect.close 0 ∈ (shutdown ⟨[0], [⟨0, false, 0⟩], 1⟩).2 ∧
    (render ⟨30, 2, 200⟩ (shutdown ⟨[0], [⟨0, false, 0⟩], 1⟩).1 "u"
        (.success "h")).1 ≠ .noBrowserAvailable ∧
    (render ⟨30, 2, 200⟩ (shutdown ⟨[0], [⟨0, false, 0⟩], 1⟩).1 "u"
        (.success "h")).2.2.head? = some (.attach 0) :=
  C9_shutdown_keeps_pool ⟨30, 2, 200⟩ ⟨[0], [⟨0, false, 0⟩], 1⟩ "u" (.success "h")
    ⟨0, false, 0⟩ [] rfl (by decide)

/-- C10 (implicit): a render call that fails before acquiring a page —
`NoBrowserAvailable` on an empty pages set, or the 10s acquire timeout —
leaves the pool state exactly as it was, performs no operation, and in
particular never runs the release step. -/
theorem C10_preacquire_no_mutation (cfg : Config) (st : PoolState) (url : String)
    (sc : BodyScenario) (h : st.pages = [] ∨ st.idle = []) :
    (render cfg st url sc).2.1 = st ∧
    (render cfg st url sc).2.2 = [] ∧
    Effect.taskDone ∉ (render cfg st url sc).2.2 ∧
    ((render cfg st url sc).1 = .noBrowserAvailable ∨
      (render cfg st url sc).1 =
        .temporaryBrowserFailure "No Chrome page available in 10s") := by
  rcases h with h | h
  · refine ⟨?_, ?_, ?_, ?_⟩ <;> simp [render, h]
  · refine ⟨?_, ?_, ?_, ?_⟩ <;> cases hp : st.pages.isEmpty <;> simp [render, h, hp]

/-- Witness for C10 on the empty pool. -/
theorem C10_preacquire_no_mutation_witness :
    (render ⟨30, 2, 200⟩ ⟨[], [], 0⟩ "u" (.success "h")).2.1 =
      (⟨[], [], 0⟩ : PoolState) ∧
    (render ⟨30, 2, 200⟩ ⟨[], [], 0⟩ "u" (.success "h")).2.2 = [] ∧
    Effect.taskDone ∉ (render ⟨30, 2, 200⟩ ⟨[], [], 0⟩ "u" (.success "h")).2.2 ∧
    ((render ⟨30, 2, 200⟩ ⟨[], [], 0⟩ "u" (.success "h")).1 = .noBrowserAvailable ∨
      (render ⟨30, 2, 200⟩ ⟨[], [], 0⟩ "u" (.success "h")).1 =
        .temporaryBrowserFailure "No Chrome page available in 10s") :=
  C10_preacquire_no_mutation ⟨30, 2, 200⟩ ⟨[], [], 0⟩ "u" (.success "h") (Or.inl rfl)

end Prerender
